import Mathlib

/-!
Verification of the convergence engine of the figma-to-code agent.

The development shallowly embeds the Python sources:
  tools/compare_measurements.py   (Spec Registry, Deviation Analyzer)
  scripts/run_multi_iteration_with_triage.py (Accuracy Scorer, Iteration Controller)
  tools/triage_issues.py          (Issue Classifier / Triage)

Modelling conventions:
  - Python floats are modelled as rationals (ℚ); every numeric literal that
    occurs in the code and in the claims is exactly representable.
  - Python dicts keyed by strings are modelled as functions into Option.
  - CSS font-size strings such as "24px" are modelled by the parsed value:
    a Measurement carries fontSize : Option ℚ, where none stands for a
    missing, empty or unparseable styles.fontSize entry (all of which
    parse_font_size maps to 0.0 in the source).
  - Message strings are built with the same templates as the f-strings of
    the source; integer-valued numbers render as plain integers (the JSON
    integers of the source render the same way; registry floats render
    with a trailing ".0" in Python, a difference no claim depends on).
-/

namespace FigmaAgent

/-- Issue priority, the values used by compare_measurements.py. -/
inductive Priority
  | high
  | medium
  | low
deriving DecidableEq

/-- Issue category, the values used by compare_measurements.py. -/
inductive Category
  | missing_element
  | dimension
  | typography
deriving DecidableEq

/-- Element type of a registry entry ('image', 'text', 'container'). -/
inductive ElemType
  | image
  | text
  | container
deriving DecidableEq

/-- One entry of the Spec Registry (ELEMENT_MAPPING in
compare_measurements.py).  expected_font_size is none when the key
'expected_font_size' is absent from the Python dict. -/
structure ElementSpec where
  figma_id : String
  figma_name : String
  expected_width : ℚ
  expected_height : ℚ
  expected_font_size : Option ℚ
  expected_font_family : Option String
  elem_type : ElemType
deriving DecidableEq

/-- One DOM measurement entry.  width/height are the optional entries of the
'dimensions' sub-dict (dims.get with default 0 in the source); fontSize is
the parsed styles.fontSize value, none when missing/empty/unparseable. -/
structure Measurement where
  found : Bool
  width : Option ℚ
  height : Option ℚ
  fontSize : Option ℚ
deriving DecidableEq

/-- A measured snapshot: dom_measurements.get(element_key). -/
def MeasurementMap := String → Option Measurement

/-- One feedback item of compare_measurements.  The Python dict key
'deviation' holds a rendered string like "33.3% too tall"; it is modelled
as the pair of the absolute percentage deviation and the direction word,
and is none for missing_element items (whose dict has no such key). -/
structure Issue where
  priority : Priority
  category : Category
  element : String
  figma_id : String
  issue : String
  deviation : Option (ℚ × String)
  fix : String
deriving DecidableEq

/-- Decimal digits of a positive number, fuel-recursive so that it reduces
in the kernel. -/
def natDigitsAux : Nat → Nat → List Char
  | 0, _ => []
  | fuel + 1, n =>
    if n = 0 then [] else natDigitsAux fuel (n / 10) ++ [Char.ofNat (48 + n % 10)]

/-- Decimal rendering of a natural number. -/
def natStr (n : Nat) : String :=
  if n = 0 then "0" else String.mk (natDigitsAux n n)

/-- Decimal rendering of an integer. -/
def intStr (i : Int) : String :=
  if i < 0 then "-" ++ natStr i.natAbs else natStr i.natAbs

/-- Rendering of a rational for the message templates.  Integral values
render as plain integers; non-integral values (which occur in no claim)
render as fractions. -/
def ratStr (q : ℚ) : String :=
  if q.den = 1 then intStr q.num else intStr q.num ++ "/" ++ natStr q.den

/-- Rendering of the registry element type. -/
def elemTypeStr : ElemType → String
  | .image => "image"
  | .text => "text"
  | .container => "container"

/-- ELEMENT_MAPPING of compare_measurements.py, in source (dict insertion)
order. -/
def ELEMENT_MAPPING : List (String × ElementSpec) :=
  [("main_product_image",
    { figma_id := "157:745", figma_name := "Image1",
      expected_width := 576, expected_height := 720,
      expected_font_size := none, expected_font_family := none,
      elem_type := .image }),
   ("product_title",
    { figma_id := "157:800", figma_name := "Brushed cashmere short-sleeve cardigan",
      expected_width := 500, expected_height := 24,
      expected_font_size := some 24, expected_font_family := some "Big Caslon",
      elem_type := .text }),
   ("product_description",
    { figma_id := "157:814", figma_name := "romance copy",
      expected_width := 500, expected_height := 108,
      expected_font_size := some 18, expected_font_family := some "Soleil",
      elem_type := .text }),
   ("selection_bar",
    { figma_id := "157:817", figma_name := "floating-selection-bar",
      expected_width := 1162, expected_height := 112,
      expected_font_size := none, expected_font_family := none,
      elem_type := .container }),
   ("left_column",
    { figma_id := "157:798", figma_name := "left column",
      expected_width := 500, expected_height := 224,
      expected_font_size := none, expected_font_family := none,
      elem_type := .container })]

/-- calculate_deviation of compare_measurements.py. -/
def calculate_deviation (actual expected : ℚ) : ℚ :=
  if expected = 0 then 0 else (actual - expected) / expected * 100

/-- parse_font_size of compare_measurements.py, on the parsed model of the
CSS string: a missing, empty or unparseable font-size string yields 0.0. -/
def parse_font_size : Option ℚ → ℚ
  | none => 0
  | some q => q

/-- The missing-element feedback item of compare_measurements (lines 90-97). -/
def missing_issue (expected : ElementSpec) : Issue :=
  { priority := .high, category := .missing_element,
    element := expected.figma_name, figma_id := expected.figma_id,
    issue := "Element not found in DOM",
    deviation := none,
    fix := "Add " ++ elemTypeStr expected.elem_type ++
      " element matching Figma node " ++ expected.figma_id }

/-- The width comparison of compare_measurements (lines 106-117). -/
def width_check (expected : ElementSpec) (actual_width : ℚ) : List Issue :=
  if 10 < |calculate_deviation actual_width expected.expected_width| then
    [{ priority :=
         if 20 < |calculate_deviation actual_width expected.expected_width| then
           .high else .medium,
       category := .dimension,
       element := expected.figma_name, figma_id := expected.figma_id,
       issue := "Width is " ++ ratStr actual_width ++ "px, should be " ++
         ratStr expected.expected_width ++ "px",
       deviation := some (|calculate_deviation actual_width expected.expected_width|,
         if 0 < calculate_deviation actual_width expected.expected_width then
           "wide" else "narrow"),
       fix := "Set width to " ++ ratStr expected.expected_width ++ "px" }]
  else []

/-- The height comparison of compare_measurements (lines 120-131). -/
def height_check (expected : ElementSpec) (actual_height : ℚ) : List Issue :=
  if 10 < |calculate_deviation actual_height expected.expected_height| then
    [{ priority :=
         if 20 < |calculate_deviation actual_height expected.expected_height| then
           .high else .medium,
       category := .dimension,
       element := expected.figma_name, figma_id := expected.figma_id,
       issue := "Height is " ++ ratStr actual_height ++ "px, should be " ++
         ratStr expected.expected_height ++ "px",
       deviation := some (|calculate_deviation actual_height expected.expected_height|,
         if 0 < calculate_deviation actual_height expected.expected_height then
           "tall" else "short"),
       fix := "Set height to " ++ ratStr expected.expected_height ++ "px" }]
  else []

/-- The font-size comparison of compare_measurements (lines 134-148); note
the source gives every typography item the fixed priority 'medium'. -/
def font_size_check (expected : ElementSpec) (efs : ℚ) (actual_font_size : ℚ) :
    List Issue :=
  if 10 < |calculate_deviation actual_font_size efs| then
    [{ priority := .medium,
       category := .typography,
       element := expected.figma_name, figma_id := expected.figma_id,
       issue := "Font size is " ++ ratStr actual_font_size ++ "px, should be " ++
         ratStr efs ++ "px",
       deviation := some (|calculate_deviation actual_font_size efs|,
         if 0 < calculate_deviation actual_font_size efs then
           "large" else "small"),
       fix := "Set font-size to " ++ ratStr efs ++ "px" }]
  else []

/-- The font-size comparison runs only for text elements carrying an
expected font size (the guard of line 134). -/
def font_part (expected : ElementSpec) (m : Measurement) : List Issue :=
  match expected.elem_type, expected.expected_font_size with
  | .text, some efs => font_size_check expected efs (parse_font_size m.fontSize)
  | _, _ => []

/-- The per-element body of the loop of compare_measurements (lines 85-148):
a falsy or not-found entry yields one missing_element item; otherwise the
width, height and (for text elements with an expected font size) font-size
comparisons run in that order, reading absent dimensions as 0. -/
def compareElement (expected : ElementSpec) (dom_elem : Option Measurement) :
    List Issue :=
  match dom_elem with
  | none => [missing_issue expected]
  | some m =>
    if m.found = false then [missing_issue expected]
    else
      width_check expected (m.width.getD 0) ++
      height_check expected (m.height.getD 0) ++
      font_part expected m

/-- compare_measurements with the registry as an explicit argument (the
source closes over the module-level ELEMENT_MAPPING; the claims also speak
about hypothetical one-element registries). -/
def compare_with (mapping : List (String × ElementSpec)) (dom : MeasurementMap) :
    List Issue :=
  (mapping.map (fun p => compareElement p.2 (dom p.1))).flatten

/-- compare_measurements of compare_measurements.py. -/
def compare_measurements (dom : MeasurementMap) : List Issue :=
  compare_with ELEMENT_MAPPING dom

/-- priority_order of format_feedback_for_agent (line 161); the .get default
3 is unreachable since Priority is total here. -/
def priority_order : Priority → Nat
  | .high => 0
  | .medium => 1
  | .low => 2

/-- The sort key comparison of format_feedback_for_agent (line 162):
Python key tuples (priority_order, element) compare lexicographically. -/
def feedback_le (a b : Issue) : Bool :=
  (priority_order a.priority < priority_order b.priority) ||
  ((priority_order a.priority == priority_order b.priority) &&
    decide (a.element ≤ b.element))

/-- The in-place stable sort performed by format_feedback_for_agent
(lines 160-162) before rendering the feedback text. -/
def sort_feedback (l : List Issue) : List Issue :=
  l.mergeSort feedback_le

/-- The penalty per feedback item of calculate_accuracy_score
(run_multi_iteration_with_triage.py lines 83-90); the .get default 'low'
is unreachable since Priority is total here. -/
def priority_penalty : Priority → ℚ
  | .high => 5
  | .medium => 2
  | .low => 1

/-- calculate_accuracy_score of run_multi_iteration_with_triage.py
(an identical copy lives in run_improvement_loop_with_measurements.py). -/
def calculate_accuracy_score (feedback : List Issue) : ℚ :=
  max 0 (feedback.foldl (fun score item => score - priority_penalty item.priority) 100)

/-- Prefix test on character lists (kernel-reducible). -/
def listStartsWith : List Char → List Char → Bool
  | [], _ => true
  | _ :: _, [] => false
  | a :: as, b :: bs => a == b && listStartsWith as bs

/-- Substring containment on character lists, the model of the Python
operator `pattern in text`. -/
def containsSub (needle : List Char) : List Char → Bool
  | [] => needle.isEmpty
  | c :: cs => listStartsWith needle (c :: cs) || containsSub needle cs

/-- ASCII lower-casing of one character, the model of Python str.lower on
the ASCII texts involved. -/
def lowerChar (c : Char) : Char :=
  if 65 ≤ c.toNat ∧ c.toNat ≤ 90 then Char.ofNat (c.toNat + 32) else c

/-- Lower-cased character list of a string. -/
def lowerStr (s : String) : List Char :=
  s.toList.map lowerChar

/-- Containment of a pattern in the lower-cased issue text:
`pattern in issue_text` of categorize_issue. -/
def patternIn (pat : String) (textLower : List Char) : Bool :=
  containsSub pat.toList textLower

/-- auto_fixable_patterns of categorize_issue (triage_issues.py lines 40-46). -/
def auto_fixable_patterns : List String :=
  ["width is", "font size is", "font-size is", "too wide", "too narrow"]

/-- needs_input_patterns of categorize_issue (triage_issues.py lines 49-54). -/
def needs_input_patterns : List String :=
  ["element not found", "missing", "height is", "line-height"]

/-- The result of categorize_issue ('auto-fixable' / 'needs-designer-input'). -/
inductive TriageCategory
  | autoFixable
  | needsDesignerInput
deriving DecidableEq

/-- A snapshot of one controller pass (the iteration_state dict of
run_multi_iteration_with_triage.py lines 160-166). -/
structure IterationState where
  iteration : Nat
  accuracy : ℚ
  total_issues : Nat
  feedback : List Issue
  measurements : MeasurementMap

/-- categorize_issue of triage_issues.py.  A Python call with
iteration_history=None behaves like the empty history.  The source loops
over each pattern list returning on the first hit; since every hit in one
list returns the same result, the loop is the List.any of the list. -/
def categorize_issue (issue : Issue) (iteration_history : List IterationState) :
    TriageCategory :=
  let issue_text := lowerStr issue.issue
  let is_stuck := decide (2 ≤ iteration_history.length)
  if auto_fixable_patterns.any (fun p => patternIn p issue_text) then
    if is_stuck then .needsDesignerInput else .autoFixable
  else if needs_input_patterns.any (fun p => patternIn p issue_text) then
    .needsDesignerInput
  else if issue.priority = .high ∨ is_stuck = true then
    .needsDesignerInput
  else .autoFixable

/-- The template branch generate_designer_question dispatches to. -/
inductive QuestionBranch
  | missingElement
  | heightIssue
  | lineHeight
  | generic
deriving DecidableEq

/-- A designer question (triage_issues.py lines 94-204).  The presentation
strings (context, question text, options, recommendation) that each branch
fills are fixed templates of the chosen branch plus substrings of the issue
text; they are summarised here by the branch tag, which no claim inspects
beyond existence and count. -/
structure DesignerQuestion where
  element : String
  figma_id : String
  category : Category
  issue : String
  priority : Priority
  branch : QuestionBranch

/-- generate_designer_question of triage_issues.py: the branch dispatch of
lines 107, 130 and 159 (the third condition tests 'height' on the raw,
un-lowered text, as the source does). -/
def generate_designer_question (issue : Issue) : DesignerQuestion :=
  { element := issue.element, figma_id := issue.figma_id,
    category := issue.category, issue := issue.issue,
    priority := issue.priority,
    branch :=
      if patternIn "not found" (lowerStr issue.issue) ∨
          issue.category = .missing_element then
        .missingElement
      else if patternIn "height is" (lowerStr issue.issue) then
        .heightIssue
      else if patternIn "line-height" (lowerStr issue.issue) ∨
          (containsSub ("height".toList) issue.issue.toList = true ∧
            patternIn "font" (lowerStr issue.element)) then
        .lineHeight
      else .generic }

/-- The summary block of a triage report (triage_issues.py lines 244-250);
note the source sets plateau_detected to the literal True. -/
structure TriageSummary where
  iterations_attempted : Nat
  total_issues : Nat
  auto_fixable : Nat
  needs_designer_input : Nat
  plateau_detected : Bool

/-- A triage report (triage_issues.py lines 243-259). -/
structure TriageReport where
  summary : TriageSummary
  auto_fixable_issues : List Issue
  designer_questions : List DesignerQuestion
  recommendations : List String

/-- triage_issues of triage_issues.py: partition by categorize_issue, one
designer question per needs-input issue, and the fixed summary. -/
def triage_issues (issues : List Issue) (iteration_count : Nat)
    (iteration_history : List IterationState) : TriageReport :=
  let auto_fixable := issues.filter
    (fun issue => categorize_issue issue iteration_history = .autoFixable)
  let needs_designer_input := issues.filter
    (fun issue => ¬ categorize_issue issue iteration_history = .autoFixable)
  let designer_questions := needs_designer_input.map generate_designer_question
  { summary :=
      { iterations_attempted := iteration_count,
        total_issues := issues.length,
        auto_fixable := auto_fixable.length,
        needs_designer_input := needs_designer_input.length,
        plateau_detected := true },
    auto_fixable_issues := auto_fixable,
    designer_questions := designer_questions,
    recommendations :=
      [(if auto_fixable.isEmpty then "All auto-fixable issues resolved"
        else "Auto-fixed " ++ natStr auto_fixable.length ++ " issues successfully"),
       natStr needs_designer_input.length ++ " issues need designer input to proceed",
       "Review questions below and provide guidance",
       "After designer input, run additional improvement iterations"] }

/-- MAX_AUTO_ITERATIONS of run_multi_iteration_with_triage.py. -/
def MAX_AUTO_ITERATIONS : Nat := 2

/-- PLATEAU_THRESHOLD of run_multi_iteration_with_triage.py. -/
def PLATEAU_THRESHOLD : ℚ := 0

/-- MIN_ACCURACY_TARGET of run_multi_iteration_with_triage.py. -/
def MIN_ACCURACY_TARGET : ℚ := 85

/-- The terminal condition of one run of the controller loop. -/
inductive Outcome
  | success (final_accuracy : ℚ)
  | targetReached (final_accuracy : ℚ)
  | escalated (plateau_detected : Bool) (report : TriageReport)
  | noIterations

/-- The observable result of a controller run: how it stopped and the
iteration_history it accumulated. -/
structure RunResult where
  outcome : Outcome
  history : List IterationState

/-- The plateau flag of an escalated outcome. -/
def Outcome.plateauFlag : Outcome → Option Bool
  | .escalated p _ => some p
  | _ => none

/-- The triage report of an escalated outcome. -/
def Outcome.triageReport : Outcome → Option TriageReport
  | .escalated _ r => some r
  | _ => none

/-- The body of the for-loop of run_multi_iteration_with_triage.py
(lines 130-288), as fuel recursion; the external measurement and patch
collaborators are abstracted into the measure argument: measure n is the
measurement set the collaborators produce for iteration n. -/
def runAux (measure : Nat → MeasurementMap) (maxIter : Nat) :
    Nat → Nat → ℚ → List IterationState → RunResult
  | 0, _, _, history => ⟨.noIterations, history⟩
  | fuel + 1, iteration, previous_accuracy, history =>
    let measurements := measure iteration
    let feedback := compare_measurements measurements
    let current_accuracy := calculate_accuracy_score feedback
    let history2 := history ++
      [⟨iteration, current_accuracy, feedback.length, feedback, measurements⟩]
    if feedback.length = 0 then
      ⟨.success current_accuracy, history2⟩
    else if MIN_ACCURACY_TARGET ≤ current_accuracy then
      ⟨.targetReached current_accuracy, history2⟩
    else if maxIter ≤ iteration ∧ 0 < feedback.length then
      let improvement := if 1 < iteration then current_accuracy - previous_accuracy else 0
      let plateau_detected := decide (improvement ≤ PLATEAU_THRESHOLD)
      ⟨.escalated plateau_detected (triage_issues feedback iteration history2), history2⟩
    else
      runAux measure maxIter fuel (iteration + 1) current_accuracy history2

/-- run_multi_iteration_with_triage of run_multi_iteration_with_triage.py:
iterations 1 .. MAX_AUTO_ITERATIONS, previous_accuracy starting at 0. -/
def run_multi_iteration_with_triage (measure : Nat → MeasurementMap) : RunResult :=
  runAux measure MAX_AUTO_ITERATIONS MAX_AUTO_ITERATIONS 1 0 []

/-! Helper lemmas shared between the claim theorems. -/

/-- Deviation of an exact measurement is zero. -/
lemma dev_self (a : ℚ) : calculate_deviation a a = 0 := by
  unfold calculate_deviation
  split <;> simp

/-- Deviation of a scaled measurement: e × c deviates by (c - 1) × 100 percent. -/
lemma dev_scale (e c : ℚ) (he : e ≠ 0) :
    calculate_deviation (e * c) e = (c - 1) * 100 := by
  unfold calculate_deviation
  rw [if_neg he]
  field_simp
  ring

/-- Deviation of a zero measurement against a nonzero expectation is -100. -/
lemma dev_zero (e : ℚ) (he : e ≠ 0) : calculate_deviation 0 e = -100 := by
  unfold calculate_deviation
  rw [if_neg he]
  field_simp

/-- The subtracting fold of the scorer equals the start value minus the sum
of the penalties. -/
lemma foldl_sub_penalty (l : List Issue) (a : ℚ) :
    l.foldl (fun score item => score - priority_penalty item.priority) a =
      a - (l.map (fun i => priority_penalty i.priority)).sum := by
  induction l generalizing a with
  | nil => simp
  | cons x xs ih =>
    simp only [List.foldl_cons, List.map_cons, List.sum_cons, ih]
    ring

/-- The penalty sum counts 5 per high, 2 per medium and 1 per low item. -/
lemma penalty_sum (l : List Issue) :
    (l.map (fun i => priority_penalty i.priority)).sum =
      5 * ((l.map Issue.priority).count .high : ℚ) +
      2 * ((l.map Issue.priority).count .medium : ℚ) +
      ((l.map Issue.priority).count .low : ℚ) := by
  induction l with
  | nil => simp
  | cons x xs ih =>
    simp only [List.map_cons, List.sum_cons, List.count_cons, ih]
    cases hx : x.priority <;> simp [hx, priority_penalty] <;> ring

/-- C5: The Accuracy Scorer is a pure function of the issue list: it starts
at 100.0 and subtracts 5.0 per high-priority issue, 2.0 per medium-priority
issue, and 1.0 per low-priority issue, clamping at a minimum of 0.0; in
particular score([]) = 100.0, two high-priority issues score 90.0, and the
score is never below 0.0 (30 high-priority issues score exactly 0.0). -/
theorem C5_accuracy_scorer :
    (∀ l : List Issue, calculate_accuracy_score l =
      max 0 (100 - (5 * ((l.map Issue.priority).count .high : ℚ) +
                    2 * ((l.map Issue.priority).count .medium : ℚ) +
                    ((l.map Issue.priority).count .low : ℚ)))) ∧
    calculate_accuracy_score [] = 100 ∧
    (∀ a b : Issue, a.priority = .high → b.priority = .high →
      calculate_accuracy_score [a, b] = 90) ∧
    (∀ l : List Issue, 0 ≤ calculate_accuracy_score l) ∧
    (∀ a : Issue, a.priority = .high →
      calculate_accuracy_score (List.replicate 30 a) = 0) := by
  have hform : ∀ l : List Issue, calculate_accuracy_score l =
      max 0 (100 - (5 * ((l.map Issue.priority).count .high : ℚ) +
                    2 * ((l.map Issue.priority).count .medium : ℚ) +
                    ((l.map Issue.priority).count .low : ℚ))) := by
    intro l
    unfold calculate_accuracy_score
    rw [foldl_sub_penalty, penalty_sum]
  refine ⟨hform, ?_, ?_, ?_, ?_⟩
  · simp [hform]
  · intro a b ha hb
    rw [hform]
    simp [List.count_cons, ha, hb]
    norm_num
  · intro l
    rw [hform]
    exact le_max_left 0 _
  · intro a ha
    rw [hform]
    simp [List.map_replicate, List.count_replicate, ha]
    norm_num

/-- Concrete high-priority issue used by witnesses. -/
def sample_high_issue : Issue :=
  { priority := .high, category := .dimension, element := "left column",
    figma_id := "157:798",
    issue := "Height is 24px, should be 224px",
    deviation := some (625/7, "short"),
    fix := "Set height to 224px" }

/-- Witness for C5 at concrete input: two high-priority issues score 90. -/
theorem C5_accuracy_scorer_witness :
    sample_high_issue.priority = .high ∧
    calculate_accuracy_score [sample_high_issue, sample_high_issue] = 90 :=
  ⟨rfl, C5_accuracy_scorer.2.2.1 sample_high_issue sample_high_issue rfl rfl⟩

/-- C6: relative deviation is (actual - expected)/expected × 100, defined as
0 when expected = 0; for a found element whose other expectations match
exactly, a width of expected × 1.10 yields no issue, expected × 1.11 a
medium-priority issue, expected × 1.21 a high-priority issue, and
symmetrically expected × 0.90 none, × 0.89 medium, × 0.79 high. -/
theorem C6_deviation_boundaries :
    (∀ a : ℚ, calculate_deviation a 0 = 0) ∧
    (∀ a e : ℚ, e ≠ 0 → calculate_deviation a e = (a - e) / e * 100) ∧
    (∀ spec : ElementSpec, spec.elem_type = .container → spec.expected_width ≠ 0 →
      compareElement spec
        (some ⟨true, some (spec.expected_width * (110/100)), some spec.expected_height, none⟩) = [] ∧
      (compareElement spec
        (some ⟨true, some (spec.expected_width * (111/100)), some spec.expected_height, none⟩)).map
          Issue.priority = [.medium] ∧
      (compareElement spec
        (some ⟨true, some (spec.expected_width * (121/100)), some spec.expected_height, none⟩)).map
          Issue.priority = [.high] ∧
      compareElement spec
        (some ⟨true, some (spec.expected_width * (90/100)), some spec.expected_height, none⟩) = [] ∧
      (compareElement spec
        (some ⟨true, some (spec.expected_width * (89/100)), some spec.expected_height, none⟩)).map
          Issue.priority = [.medium] ∧
      (compareElement spec
        (some ⟨true, some (spec.expected_width * (79/100)), some spec.expected_height, none⟩)).map
          Issue.priority = [.high] ∧
      (compareElement spec
        (some ⟨true, some (spec.expected_width * (111/100)), some spec.expected_height, none⟩)).map
          Issue.category = [.dimension]) := by
  refine ⟨fun a => by simp [calculate_deviation],
          fun a e he => by simp [calculate_deviation, he], ?_⟩
  intro spec htype hw
  have hh := dev_self spec.expected_height
  refine ⟨?_, ?_, ?_, ?_, ?_, ?_, ?_⟩ <;>
    norm_num [compareElement, font_part, htype, width_check, height_check,
      dev_scale _ _ hw, hh, abs_of_pos, abs_of_neg]

/-- Concrete container spec used by the C6 witness. -/
def c6_spec : ElementSpec :=
  { figma_id := "157:817", figma_name := "floating-selection-bar",
    expected_width := 1162, expected_height := 112,
    expected_font_size := none, expected_font_family := none,
    elem_type := .container }

/-- Witness for C6 at concrete input: at width 1162 × 1.10 no issue is
emitted, at 1162 × 1.11 one medium issue. -/
theorem C6_deviation_boundaries_witness :
    c6_spec.elem_type = .container ∧ c6_spec.expected_width ≠ 0 ∧
    compareElement c6_spec
      (some ⟨true, some (c6_spec.expected_width * (110/100)), some c6_spec.expected_height, none⟩) = [] ∧
    (compareElement c6_spec
      (some ⟨true, some (c6_spec.expected_width * (111/100)), some c6_spec.expected_height, none⟩)).map
        Issue.priority = [.medium] :=
  ⟨rfl, by decide,
   (C6_deviation_boundaries.2.2 c6_spec rfl (by decide)).1,
   (C6_deviation_boundaries.2.2 c6_spec rfl (by decide)).2.1⟩

/-- Every width-check item is a dimension issue. -/
lemma width_check_mem (spec : ElementSpec) (a : ℚ) (i : Issue)
    (h : i ∈ width_check spec a) : i.category = .dimension := by
  unfold width_check at h
  split at h
  · simp only [List.mem_singleton] at h
    subst h
    rfl
  · simp at h

/-- Every height-check item is a dimension issue. -/
lemma height_check_mem (spec : ElementSpec) (a : ℚ) (i : Issue)
    (h : i ∈ height_check spec a) : i.category = .dimension := by
  unfold height_check at h
  split at h
  · simp only [List.mem_singleton] at h
    subst h
    rfl
  · simp at h

/-- Every font-size-check item is a typography issue of priority medium. -/
lemma font_size_check_mem (spec : ElementSpec) (efs a : ℚ) (i : Issue)
    (h : i ∈ font_size_check spec efs a) :
    i.category = .typography ∧ i.priority = .medium := by
  unfold font_size_check at h
  split at h
  · simp only [List.mem_singleton] at h
    subst h
    exact ⟨rfl, rfl⟩
  · simp at h

/-- Every font-part item is a font-size-check item. -/
lemma font_part_mem (spec : ElementSpec) (m : Measurement) (i : Issue)
    (h : i ∈ font_part spec m) : ∃ efs a, i ∈ font_size_check spec efs a := by
  unfold font_part at h
  split at h
  · exact ⟨_, _, h⟩
  · simp at h

/-- Every item compareElement emits is the missing item, a width item, a
height item, or a font-size item. -/
lemma compareElement_mem (spec : ElementSpec) (dom_elem : Option Measurement)
    (i : Issue) (h : i ∈ compareElement spec dom_elem) :
    i = missing_issue spec ∨
    (∃ a, i ∈ width_check spec a) ∨
    (∃ a, i ∈ height_check spec a) ∨
    (∃ efs a, i ∈ font_size_check spec efs a) := by
  cases dom_elem with
  | none =>
    simp only [compareElement, List.mem_singleton] at h
    exact Or.inl h
  | some m =>
    simp only [compareElement] at h
    split at h
    · simp only [List.mem_singleton] at h
      exact Or.inl h
    · simp only [List.mem_append] at h
      rcases h with (h | h) | h
      · exact Or.inr (Or.inl ⟨_, h⟩)
      · exact Or.inr (Or.inr (Or.inl ⟨_, h⟩))
      · exact Or.inr (Or.inr (Or.inr (font_part_mem _ _ _ h)))

/-- C2 (amended): the analyzer emits a typography issue exactly when the
font-size deviation has absolute value above 10 percent, but every
typography issue it emits has priority medium — including deviations above
20 percent; no typography issue is ever high-priority. -/
theorem C2_typography_priority :
    (∀ (mapping : List (String × ElementSpec)) (dom : MeasurementMap) (i : Issue),
      i ∈ compare_with mapping dom → i.category = .typography →
        i.priority = .medium) ∧
    (∀ (spec : ElementSpec) (efs a : ℚ), 10 < |calculate_deviation a efs| →
      (font_size_check spec efs a).map Issue.priority = [.medium]) ∧
    (∀ (spec : ElementSpec) (efs a : ℚ), ¬ 10 < |calculate_deviation a efs| →
      font_size_check spec efs a = []) := by
  refine ⟨?_, ?_, ?_⟩
  · intro mapping dom i hi hcat
    simp only [compare_with, List.mem_flatten, List.mem_map] at hi
    obtain ⟨_, ⟨p, _, rfl⟩, hmem⟩ := hi
    rcases compareElement_mem _ _ _ hmem with h | ⟨a, h⟩ | ⟨a, h⟩ | ⟨efs, a, h⟩
    · rw [h] at hcat
      simp [missing_issue] at hcat
    · rw [width_check_mem _ _ _ h] at hcat
      simp at hcat
    · rw [height_check_mem _ _ _ h] at hcat
      simp at hcat
    · exact (font_size_check_mem _ _ _ _ h).2
  · intro spec efs a hdev
    unfold font_size_check
    rw [if_pos hdev]
    rfl
  · intro spec efs a hdev
    unfold font_size_check
    rw [if_neg hdev]

/-- Text element spec expecting font size 24, for the C2 record. -/
def C2_spec : ElementSpec :=
  { figma_id := "1:1", figma_name := "title",
    expected_width := 500, expected_height := 24,
    expected_font_size := some 24, expected_font_family := some "Big Caslon",
    elem_type := .text }

/-- One-element registry with a text element expecting font size 24, for the
C2 record. -/
def C2_registry : List (String × ElementSpec) :=
  [("title", C2_spec)]

/-- Measurement for the C2 record: exact dimensions, rendered font size
48px, a 100 percent deviation. -/
def C2_dom : MeasurementMap :=
  fun k => if k = "title" then some ⟨true, some 500, some 24, some 48⟩ else none

/-- Counterexample to C2 as stated: a font-size deviation of 100 percent
(well above 20) still yields a typography issue of priority medium, not
high. -/
theorem C2_counterexample :
    (compare_with C2_registry C2_dom).map Issue.category = [.typography] ∧
    (compare_with C2_registry C2_dom).map Issue.priority = [.medium] ∧
    20 < |calculate_deviation 48 24| := by
  refine ⟨?_, ?_, by norm_num [calculate_deviation, abs_of_pos]⟩ <;>
    norm_num [compare_with, C2_registry, C2_spec, C2_dom, compareElement,
      font_part, width_check, height_check, font_size_check, parse_font_size,
      calculate_deviation, dev_self, abs_of_pos, abs_of_neg]

/-- Witness for C2 at concrete input: deviation 100 percent yields one
typography issue of priority medium. -/
theorem C2_typography_priority_witness :
    10 < |calculate_deviation 48 24| ∧
    (font_size_check C2_spec 24 48).map Issue.priority = [.medium] :=
  ⟨by norm_num [calculate_deviation, abs_of_pos],
   C2_typography_priority.2.1 C2_spec 24 48
     (by norm_num [calculate_deviation, abs_of_pos])⟩

/-- Text element spec used by the C3 record (the product-title entry shape). -/
def C3_spec : ElementSpec :=
  { figma_id := "157:800", figma_name := "Brushed cashmere short-sleeve cardigan",
    expected_width := 500, expected_height := 24,
    expected_font_size := some 24, expected_font_family := some "Big Caslon",
    elem_type := .text }

/-- C3 (amended): a measurement entry with found=true whose expected fields
are missing is NOT treated as found=false: the absent dimensions and font
size are read as 0, so the analyzer emits -100 percent deviation issues of
category dimension (high) and typography (medium) — never a missing_element
issue — and the run does not abort. -/
theorem C3_missing_fields (spec : ElementSpec) (efs : ℚ)
    (hw : spec.expected_width ≠ 0) (hh : spec.expected_height ≠ 0) (hf : efs ≠ 0)
    (htype : spec.elem_type = .text) (hfs : spec.expected_font_size = some efs) :
    (compareElement spec (some ⟨true, none, none, none⟩)).map Issue.category =
      [.dimension, .dimension, .typography] ∧
    (compareElement spec (some ⟨true, none, none, none⟩)).map Issue.priority =
      [.high, .high, .medium] ∧
    Category.missing_element ∉
      (compareElement spec (some ⟨true, none, none, none⟩)).map Issue.category := by
  have h1 := dev_zero spec.expected_width hw
  have h2 := dev_zero spec.expected_height hh
  have h3 := dev_zero efs hf
  refine ⟨?_, ?_, ?_⟩
  · norm_num [compareElement, font_part, htype, hfs, width_check, height_check,
      font_size_check, parse_font_size, h1, h2, h3, abs_of_neg]
  · norm_num [compareElement, font_part, htype, hfs, width_check, height_check,
      font_size_check, parse_font_size, h1, h2, h3, abs_of_neg]
  · norm_num [compareElement, font_part, htype, hfs, width_check, height_check,
      font_size_check, parse_font_size, h1, h2, h3, abs_of_neg]
    exact ⟨by decide, by decide⟩

/-- Counterexample to C3 as stated: a found=true entry with no dimensions
and no font size produces two dimension issues and one typography issue —
no missing_element issue at all. -/
theorem C3_counterexample :
    (compareElement C3_spec (some ⟨true, none, none, none⟩)).map Issue.category =
      [.dimension, .dimension, .typography] ∧
    Category.missing_element ∉
      (compareElement C3_spec (some ⟨true, none, none, none⟩)).map Issue.category := by
  constructor
  · norm_num [compareElement, font_part, C3_spec, width_check, height_check,
      font_size_check, parse_font_size, calculate_deviation, abs_of_neg]
  · norm_num [compareElement, font_part, C3_spec, width_check, height_check,
      font_size_check, parse_font_size, calculate_deviation, abs_of_neg]
    exact ⟨by decide, by decide⟩

/-- Witness for C3 at concrete input: the product-title-shaped spec with an
all-defaulted measurement yields dimension, dimension, typography. -/
theorem C3_missing_fields_witness :
    C3_spec.expected_width ≠ 0 ∧ C3_spec.elem_type = .text ∧
    (compareElement C3_spec (some ⟨true, none, none, none⟩)).map Issue.priority =
      [.high, .high, .medium] :=
  ⟨by decide, rfl,
   (C3_missing_fields C3_spec 24 (by decide) (by decide) (by decide) rfl rfl).2.1⟩

/-- One-element registry of the C1 scenario: `title` with expected width
500 and expected height 24. -/
def C1_registry : List (String × ElementSpec) :=
  [("title",
    { figma_id := "1:1", figma_name := "title",
      expected_width := 500, expected_height := 24,
      expected_font_size := none, expected_font_family := none,
      elem_type := .text })]

/-- Measurement of the C1 scenario: width 500, height 32, found. -/
def C1_dom : MeasurementMap :=
  fun k => if k = "title" then some ⟨true, some 500, some 32, none⟩ else none

/-- C1 (amended): for the one-element registry `title` (expected 500 × 24)
and the measurement width=500, height=32, found=true, the analyzer returns
exactly one issue, of category dimension and priority HIGH (the 33.3
percent deviation exceeds the 20 percent high threshold), whose message
states the height is 32px and should be 24px; the scorer then returns
95.0 (one high penalty of 5.0), not 98.0. -/
theorem C1_end_to_end :
    compare_with C1_registry C1_dom =
      [{ priority := .high, category := .dimension, element := "title",
         figma_id := "1:1",
         issue := "Height is 32px, should be 24px",
         deviation := some (100/3, "tall"),
         fix := "Set height to 24px" }] ∧
    calculate_accuracy_score (compare_with C1_registry C1_dom) = 95 := by
  have heval : compare_with C1_registry C1_dom =
      [{ priority := .high, category := .dimension, element := "title",
         figma_id := "1:1",
         issue := "Height is 32px, should be 24px",
         deviation := some (100/3, "tall"),
         fix := "Set height to 24px" }] := by
    norm_num [compare_with, C1_registry, C1_dom, compareElement, font_part,
      width_check, height_check, calculate_deviation, abs_of_pos, abs_of_neg]
    exact ⟨by decide, by decide⟩
  refine ⟨heval, ?_⟩
  rw [heval]
  norm_num [calculate_accuracy_score, priority_penalty]

/-- Counterexample to C1 as stated: the single issue has priority high (not
medium) and the scorer returns 95.0 (not 98.0). -/
theorem C1_counterexample :
    (compare_with C1_registry C1_dom).map Issue.priority = [.high] ∧
    Priority.high ≠ Priority.medium ∧
    calculate_accuracy_score (compare_with C1_registry C1_dom) = 95 ∧
    (95 : ℚ) ≠ 98 := by
  have heval : compare_with C1_registry C1_dom =
      [{ priority := .high, category := .dimension, element := "title",
         figma_id := "1:1",
         issue := "Height is 32px, should be 24px",
         deviation := some (100/3, "tall"),
         fix := "Set height to 24px" }] := by
    norm_num [compare_with, C1_registry, C1_dom, compareElement, font_part,
      width_check, height_check, calculate_deviation, abs_of_pos, abs_of_neg]
    exact ⟨by decide, by decide⟩
  rw [heval]
  refine ⟨rfl, by decide, ?_, by decide⟩
  norm_num [calculate_accuracy_score, priority_penalty]

/-- Key-tuple comparison is transitive. -/
lemma feedback_le_trans (a b c : Issue) (h1 : feedback_le a b = true)
    (h2 : feedback_le b c = true) : feedback_le a c = true := by
  unfold feedback_le at h1 h2 ⊢
  simp only [Bool.or_eq_true, Bool.and_eq_true, decide_eq_true_eq,
    Nat.beq_eq_true_eq] at h1 h2 ⊢
  rcases h1 with h1 | ⟨h1e, h1s⟩ <;> rcases h2 with h2 | ⟨h2e, h2s⟩
  · exact Or.inl (h1.trans h2)
  · exact Or.inl (h2e ▸ h1)
  · exact Or.inl (h1e ▸ h2)
  · exact Or.inr ⟨h1e.trans h2e, le_trans h1s h2s⟩

/-- Key-tuple comparison is total. -/
lemma feedback_le_total (a b : Issue) :
    (feedback_le a b || feedback_le b a) = true := by
  unfold feedback_le
  simp only [Bool.or_eq_true, Bool.and_eq_true, decide_eq_true_eq,
    Nat.beq_eq_true_eq]
  rcases Nat.lt_trichotomy (priority_order a.priority) (priority_order b.priority)
    with h | h | h
  · exact Or.inl (Or.inl h)
  · rcases le_total a.element b.element with hs | hs
    · exact Or.inl (Or.inr ⟨h, hs⟩)
    · exact Or.inr (Or.inr ⟨h.symm, hs⟩)
  · exact Or.inr (Or.inl h)

/-- Measurement set of the C4 record: the product title measured at width
560 (12 percent wide, medium) and height 32 (33.3 percent tall, high),
everything else exact. -/
def C4_dom : MeasurementMap := fun k =>
  if k = "main_product_image" then some ⟨true, some 576, some 720, none⟩
  else if k = "product_title" then some ⟨true, some 560, some 32, some 24⟩
  else if k = "product_description" then some ⟨true, some 500, some 108, some 18⟩
  else if k = "selection_bar" then some ⟨true, some 1162, some 112, none⟩
  else if k = "left_column" then some ⟨true, some 500, some 224, none⟩
  else none

/-- The two issues compare_measurements returns on C4_dom, in source order:
the medium width issue precedes the high height issue. -/
lemma C4_dom_eval :
    compare_measurements C4_dom =
      [{ priority := .medium, category := .dimension,
         element := "Brushed cashmere short-sleeve cardigan",
         figma_id := "157:800",
         issue := "Width is 560px, should be 500px",
         deviation := some (12, "wide"),
         fix := "Set width to 500px" },
       { priority := .high, category := .dimension,
         element := "Brushed cashmere short-sleeve cardigan",
         figma_id := "157:800",
         issue := "Height is 32px, should be 24px",
         deviation := some (100/3, "tall"),
         fix := "Set height to 24px" }] := by
  have e1 : C4_dom "main_product_image" = some ⟨true, some 576, some 720, none⟩ := by decide
  have e2 : C4_dom "product_title" = some ⟨true, some 560, some 32, some 24⟩ := by decide
  have e3 : C4_dom "product_description" = some ⟨true, some 500, some 108, some 18⟩ := by decide
  have e4 : C4_dom "selection_bar" = some ⟨true, some 1162, some 112, none⟩ := by decide
  have e5 : C4_dom "left_column" = some ⟨true, some 500, some 224, none⟩ := by decide
  norm_num [compare_measurements, compare_with, ELEMENT_MAPPING, e1, e2, e3, e4, e5,
    compareElement, font_part, width_check, height_check, font_size_check,
    parse_font_size, calculate_deviation, abs_of_pos, abs_of_neg]
  exact ⟨⟨by decide, by decide⟩, by decide, by decide⟩

/-- C4 (amended): the list compare_measurements returns is in Registry
order (per element: width, height, font size) and is NOT in general sorted
by priority; the priority-then-display-name ordering is established by the
sort format_feedback_for_agent performs, which rearranges the list into a
permutation ordered by priority (high, medium, low) and then alphabetically
by element display name. -/
theorem C4_ordering :
    ∀ l : List Issue,
      (sort_feedback l).Perm l ∧
      List.Pairwise (fun a b => feedback_le a b = true) (sort_feedback l) := by
  intro l
  exact ⟨List.mergeSort_perm l feedback_le,
    List.sorted_mergeSort feedback_le_trans feedback_le_total l⟩

/-- Counterexample to C4 as stated: on C4_dom the analyzer returns a
medium-priority issue before a high-priority one, so its output is not
ordered by priority. -/
theorem C4_counterexample :
    (compare_measurements C4_dom).map Issue.priority = [.medium, .high] ∧
    ¬ List.Pairwise (fun a b => feedback_le a b = true)
      (compare_measurements C4_dom) := by
  rw [C4_dom_eval]
  refine ⟨rfl, ?_⟩
  intro hp
  rcases List.pairwise_cons.mp hp with ⟨hab, _⟩
  have := hab _ (List.mem_singleton_self _)
  simp [feedback_le, priority_order] at this

/-- The iteration_state record appended for iteration n of a run driven by
measure. -/
def iterRecord (measure : Nat → MeasurementMap) (n : Nat) : IterationState :=
  ⟨n, calculate_accuracy_score (compare_measurements (measure n)),
   (compare_measurements (measure n)).length,
   compare_measurements (measure n), measure n⟩

/-- When both iterations of the default budget produce issues and stay
below the target, the run escalates after two iterations with the triage
report of the second feedback list. -/
lemma run_two_escalates (measure : Nat → MeasurementMap)
    (h1 : compare_measurements (measure 1) ≠ [])
    (h2 : calculate_accuracy_score (compare_measurements (measure 1)) <
      MIN_ACCURACY_TARGET)
    (h3 : compare_measurements (measure 2) ≠ [])
    (h4 : calculate_accuracy_score (compare_measurements (measure 2)) <
      MIN_ACCURACY_TARGET) :
    run_multi_iteration_with_triage measure =
      ⟨.escalated
        (decide (calculate_accuracy_score (compare_measurements (measure 2)) -
          calculate_accuracy_score (compare_measurements (measure 1)) ≤ 0))
        (triage_issues (compare_measurements (measure 2)) 2
          [iterRecord measure 1, iterRecord measure 2]),
       [iterRecord measure 1, iterRecord measure 2]⟩ := by
  have l1 : ¬ (compare_measurements (measure 1)).length = 0 := by
    simpa [List.length_eq_zero] using h1
  have l2 : ¬ MIN_ACCURACY_TARGET ≤
      calculate_accuracy_score (compare_measurements (measure 1)) := not_le.mpr h2
  have l3 : ¬ (compare_measurements (measure 2)).length = 0 := by
    simpa [List.length_eq_zero] using h3
  have l3p : 0 < (compare_measurements (measure 2)).length :=
    Nat.pos_of_ne_zero l3
  have l4 : ¬ MIN_ACCURACY_TARGET ≤
      calculate_accuracy_score (compare_measurements (measure 2)) := not_le.mpr h4
  simp [run_multi_iteration_with_triage, MAX_AUTO_ITERATIONS, PLATEAU_THRESHOLD,
    runAux, iterRecord, l1, l2, l3, l3p, l4]

/-- C7: when the controller reaches the default maximum of 2 iterations
with issues still outstanding and the score below the target, it runs
triage exactly once, stops in the escalated state, and the triage report's
iterations_attempted equals the 2 iterations run. -/
theorem C7_budget_escalation (measure : Nat → MeasurementMap)
    (h1 : compare_measurements (measure 1) ≠ [])
    (h2 : calculate_accuracy_score (compare_measurements (measure 1)) <
      MIN_ACCURACY_TARGET)
    (h3 : compare_measurements (measure 2) ≠ [])
    (h4 : calculate_accuracy_score (compare_measurements (measure 2)) <
      MIN_ACCURACY_TARGET) :
    ∃ plateau : Bool,
      (run_multi_iteration_with_triage measure).outcome =
        .escalated plateau (triage_issues (compare_measurements (measure 2)) 2
          [iterRecord measure 1, iterRecord measure 2]) ∧
      (run_multi_iteration_with_triage measure).history.length = 2 ∧
      (triage_issues (compare_measurements (measure 2)) 2
        [iterRecord measure 1, iterRecord measure 2]).summary.iterations_attempted
          = 2 := by
  rw [run_two_escalates measure h1 h2 h3 h4]
  exact ⟨_, rfl, rfl, rfl⟩

/-- The degenerate measurement collaborator that never finds any element. -/
def all_missing_measure : Nat → MeasurementMap :=
  fun _ => fun _ => none

/-- Five missing elements score 100 - 5 × 5 = 75. -/
lemma score_all_missing (n : Nat) :
    calculate_accuracy_score (compare_measurements (all_missing_measure n)) = 75 := by
  norm_num [all_missing_measure, compare_measurements, compare_with,
    ELEMENT_MAPPING, compareElement, missing_issue, calculate_accuracy_score,
    priority_penalty, max_def]

/-- Witness for C7 at concrete input: a run whose measurements never find
any element escalates after two iterations with iterations_attempted = 2. -/
theorem C7_budget_escalation_witness :
    compare_measurements (all_missing_measure 1) ≠ [] ∧
    calculate_accuracy_score (compare_measurements (all_missing_measure 1)) <
      MIN_ACCURACY_TARGET ∧
    ∃ plateau : Bool,
      (run_multi_iteration_with_triage all_missing_measure).outcome =
        .escalated plateau
          (triage_issues (compare_measurements (all_missing_measure 2)) 2
            [iterRecord all_missing_measure 1, iterRecord all_missing_measure 2]) ∧
      (run_multi_iteration_with_triage all_missing_measure).history.length = 2 ∧
      (triage_issues (compare_measurements (all_missing_measure 2)) 2
        [iterRecord all_missing_measure 1,
         iterRecord all_missing_measure 2]).summary.iterations_attempted = 2 :=
  ⟨by decide, by rw [score_all_missing]; decide,
   C7_budget_escalation all_missing_measure (by decide)
     (by rw [score_all_missing]; decide) (by decide)
     (by rw [score_all_missing]; decide)⟩

/-- C9 (amended): at budget exhaustion the controller's plateau flag is set
if and only if the score did not improve between the two iterations, and
escalation (the already-scheduled triage) happens regardless of the flag;
the emitted TriageReport itself however always records
plateau_detected = true, regardless of the score difference. -/
theorem C9_plateau_semantics (measure : Nat → MeasurementMap)
    (h1 : compare_measurements (measure 1) ≠ [])
    (h2 : calculate_accuracy_score (compare_measurements (measure 1)) <
      MIN_ACCURACY_TARGET)
    (h3 : compare_measurements (measure 2) ≠ [])
    (h4 : calculate_accuracy_score (compare_measurements (measure 2)) <
      MIN_ACCURACY_TARGET) :
    ((run_multi_iteration_with_triage measure).outcome.plateauFlag = some true ↔
      calculate_accuracy_score (compare_measurements (measure 2)) -
        calculate_accuracy_score (compare_measurements (measure 1)) ≤ 0) ∧
    (run_multi_iteration_with_triage measure).outcome.triageReport =
      some (triage_issues (compare_measurements (measure 2)) 2
        [iterRecord measure 1, iterRecord measure 2]) ∧
    (∀ r : TriageReport,
      (run_multi_iteration_with_triage measure).outcome.triageReport = some r →
        r.summary.plateau_detected = true) := by
  rw [run_two_escalates measure h1 h2 h3 h4]
  refine ⟨?_, rfl, ?_⟩
  · simp [Outcome.plateauFlag]
  · intro r hr
    simp only [Outcome.triageReport, Option.some_inj] at hr
    rw [← hr]
    rfl

/-- Witness for C9 at concrete input: with equal scores of 75 in both
iterations the plateau flag is true, matching the nonpositive difference. -/
theorem C9_plateau_semantics_witness :
    compare_measurements (all_missing_measure 1) ≠ [] ∧
    ((run_multi_iteration_with_triage all_missing_measure).outcome.plateauFlag =
        some true ↔
      calculate_accuracy_score (compare_measurements (all_missing_measure 2)) -
        calculate_accuracy_score (compare_measurements (all_missing_measure 1)) ≤ 0) :=
  ⟨by decide,
   (C9_plateau_semantics all_missing_measure (by decide)
     (by rw [score_all_missing]; decide) (by decide)
     (by rw [score_all_missing]; decide)).1⟩

/-- The second-iteration measurement set of the C9 record: the main image
found with exact dimensions, all four other elements missing. -/
def C9_m2 : MeasurementMap := fun k =>
  if k = "main_product_image" then some ⟨true, some 576, some 720, none⟩ else none

/-- The measurement sequence of the C9 record: iteration 1 finds nothing
(score 75), iteration 2 finds the exact image (score 80, an improvement,
still below the 85 target). -/
def C9_measure : Nat → MeasurementMap :=
  fun n => if n = 1 then (fun _ => none) else C9_m2

/-- The C9 record's second iteration scores 80 (four missing elements). -/
lemma score_C9_m2 : calculate_accuracy_score (compare_measurements C9_m2) = 80 := by
  have e1 : C9_m2 "main_product_image" = some ⟨true, some 576, some 720, none⟩ := by
    decide
  have e2 : C9_m2 "product_title" = none := by decide
  have e3 : C9_m2 "product_description" = none := by decide
  have e4 : C9_m2 "selection_bar" = none := by decide
  have e5 : C9_m2 "left_column" = none := by decide
  norm_num [compare_measurements, compare_with, ELEMENT_MAPPING,
    e1, e2, e3, e4, e5, compareElement, font_part, width_check, height_check,
    missing_issue, calculate_deviation, calculate_accuracy_score,
    priority_penalty, max_def]

/-- The C9 measurement sequence at iteration 1 and at iteration 2. -/
lemma C9_measure_eval :
    C9_measure 1 = (fun _ => none) ∧ C9_measure 2 = C9_m2 := by
  constructor <;> simp [C9_measure]

/-- Counterexample to C9 as stated: a run that improves from 75 to 80 (a
positive difference) still emits a TriageReport reporting
plateau_detected = true, although the controller's own plateau flag is
false; the plateau diagnostic in the report is therefore not equivalent to
the score difference being nonpositive. -/
theorem C9_counterexample :
    calculate_accuracy_score (compare_measurements (C9_measure 1)) = 75 ∧
    calculate_accuracy_score (compare_measurements (C9_measure 2)) = 80 ∧
    (run_multi_iteration_with_triage C9_measure).outcome.plateauFlag =
      some false ∧
    ((run_multi_iteration_with_triage C9_measure).outcome.triageReport).map
      (fun r => r.summary.plateau_detected) = some true := by
  obtain ⟨hm1, hm2⟩ := C9_measure_eval
  have s1 : calculate_accuracy_score (compare_measurements (C9_measure 1)) = 75 := by
    rw [hm1]
    simpa [all_missing_measure] using score_all_missing 1
  have s2 : calculate_accuracy_score (compare_measurements (C9_measure 2)) = 80 := by
    rw [hm2]
    exact score_C9_m2
  have hne1 : compare_measurements (C9_measure 1) ≠ [] := by
    rw [hm1]
    decide
  have hne2 : compare_measurements (C9_measure 2) ≠ [] := by
    intro h
    rw [h] at s2
    norm_num [calculate_accuracy_score] at s2
  have hrun := run_two_escalates C9_measure hne1 (by rw [s1]; decide) hne2
    (by rw [s2]; decide)
  rw [hrun]
  refine ⟨s1, s2, ?_, ?_⟩
  · simp only [Outcome.plateauFlag, s1, s2, Option.some_inj]
    norm_num
  · rfl

/-- C8: classifier rules run in order: an issue whose message contains one
of the purely-numeric patterns (width is / font size is / font-size is /
too wide / too narrow, case-insensitively), with fewer than two prior
iteration records in the supplied history, is classified auto-fixable —
whatever its priority, since the numeric-pattern rule precedes the
high-priority rule. -/
theorem C8_numeric_pattern_autofix (issue : Issue)
    (history : List IterationState)
    (hlen : history.length < 2)
    (hmatch : auto_fixable_patterns.any
      (fun p => patternIn p (lowerStr issue.issue)) = true) :
    categorize_issue issue history = .autoFixable := by
  have hs : decide (2 ≤ history.length) = false := by
    simp only [decide_eq_false_iff_not]
    omega
  simp only [categorize_issue, hmatch, hs]
  simp

/-- Concrete high-priority width issue used by the C8 witness. -/
def c8_issue : Issue :=
  { priority := .high, category := .dimension, element := "Image1",
    figma_id := "157:745",
    issue := "Width is 480px, should be 576px",
    deviation := some (50/3, "narrow"),
    fix := "Set width to 576px" }

/-- Witness for C8 at concrete input: a high-priority width-deviation issue
with an empty history is classified auto-fixable. -/
theorem C8_numeric_pattern_autofix_witness :
    ([] : List IterationState).length < 2 ∧
    auto_fixable_patterns.any
      (fun p => patternIn p (lowerStr c8_issue.issue)) = true ∧
    c8_issue.priority = .high ∧
    categorize_issue c8_issue [] = .autoFixable :=
  ⟨by decide, by decide, rfl,
   C8_numeric_pattern_autofix c8_issue [] (by decide) (by decide)⟩

/-- C10: once the supplied iteration history holds two or more records,
every issue is classified needs-designer-input regardless of its message,
category or priority, so a triage run with such a history puts every issue
into designer_questions and none into auto_fixable_issues. -/
theorem C10_stuck_history :
    (∀ (issue : Issue) (history : List IterationState), 2 ≤ history.length →
      categorize_issue issue history = .needsDesignerInput) ∧
    (∀ (issues : List Issue) (n : Nat) (history : List IterationState),
      2 ≤ history.length →
        (triage_issues issues n history).auto_fixable_issues = [] ∧
        (triage_issues issues n history).designer_questions.length =
          issues.length) := by
  have hcat : ∀ (issue : Issue) (history : List IterationState),
      2 ≤ history.length →
        categorize_issue issue history = .needsDesignerInput := by
    intro issue history hlen
    have hs : decide (2 ≤ history.length) = true := decide_eq_true hlen
    simp only [categorize_issue, hs]
    split
    · simp
    · split
      · rfl
      · simp
  refine ⟨hcat, ?_⟩
  intro issues n history hlen
  have hne : ∀ issue ∈ issues,
      ¬ categorize_issue issue history = .autoFixable := by
    intro issue _ hauto
    rw [hcat issue history hlen] at hauto
    exact TriageCategory.noConfusion hauto
  constructor
  · simp only [triage_issues]
    rw [List.filter_eq_nil_iff]
    intro a ha
    simpa using hne a ha
  · simp only [triage_issues, List.length_map]
    rw [List.filter_length_eq_length.mpr]
    intro a ha
    simpa using hne a ha

/-- Concrete issue used by the C10 witness: without the stuck history it
would be auto-fixable (numeric width pattern, low priority). -/
def c10_issue : Issue :=
  { priority := .low, category := .dimension, element := "Image1",
    figma_id := "157:745",
    issue := "Width is 480px, should be 576px",
    deviation := some (50/3, "narrow"),
    fix := "Set width to 576px" }

/-- Dummy iteration record used by the C10 witness history. -/
def dummy_state : IterationState :=
  ⟨1, 75, 0, [], fun _ => none⟩

/-- Witness for C10 at concrete input: with a two-record history the
classifier returns needs-designer-input and triage leaves auto_fixable
empty with one designer question for the single issue. -/
theorem C10_stuck_history_witness :
    2 ≤ ([dummy_state, dummy_state] : List IterationState).length ∧
    categorize_issue c10_issue [dummy_state, dummy_state] =
      .needsDesignerInput ∧
    (triage_issues [c10_issue] 2
      [dummy_state, dummy_state]).auto_fixable_issues = [] ∧
    (triage_issues [c10_issue] 2
      [dummy_state, dummy_state]).designer_questions.length = 1 :=
  ⟨by decide,
   C10_stuck_history.1 c10_issue [dummy_state, dummy_state] (by decide),
   (C10_stuck_history.2 [c10_issue] 2 [dummy_state, dummy_state] (by decide)).1,
   by simpa using
     (C10_stuck_history.2 [c10_issue] 2 [dummy_state, dummy_state] (by decide)).2⟩

end FigmaAgent
